import Mathlib

/-!
Shallow embedding of the hustlrs backend's task-assignment and
chat-coordination core, translated from the route handlers in
`src/routes/tasks.js` (Prisma variant mounted by the server),
`src/routes/tasks.ts` (the `PUT /:id` update route with the hustler-role
check), and `src/routes/chat.js` (both the Prisma variant and the
appended Supabase variant that provides `POST /:chatId/messages/read`).

Machine state is a record of the relevant tables; each route handler
becomes a pure function from state (plus request data) to a result code
and a new state.  Prisma's `$transaction` is modelled as an all-or-nothing
step, and the `chats.taskId` unique index (migration
`20251013160937_init`) is modelled by failing the transaction when a chat
for the task already exists.
-/

namespace Hustlrs

/-- Role column user_type: CUSTOMER / HUSTLER / BOTH. -/
inductive UserType
  | CUSTOMER
  | HUSTLER
  | BOTH
deriving DecidableEq, Repr

/-- Task `status` enum from the Prisma schema. -/
inductive TaskStatus
  | OPEN
  | ASSIGNED
  | IN_PROGRESS
  | COMPLETED
  | CANCELLED
deriving DecidableEq, Repr

/-- Task `category` enum from the create-task validator. -/
inductive Category
  | SHOPPING
  | CLEANING
  | BARBING
  | WRITING
  | DELIVERY
  | REPAIRS
  | OTHER
deriving DecidableEq, Repr

/-- A row of the `users` table (the columns the core logic touches). -/
structure User where
  id : Nat
  userType : UserType
  tasksCompleted : Nat
  tasksPosted : Nat
  totalEarnings : Nat
deriving DecidableEq, Repr

/-- A row of the `tasks` table (the columns the core logic touches). -/
structure Task where
  id : Nat
  title : String
  descr : String
  category : Category
  budget : Nat
  status : TaskStatus
  posterId : Nat
  hustlerId : Option Nat
deriving DecidableEq, Repr

/-- A row of the `chats` table; `taskId` is unique (`chats_taskId_key`). -/
structure Chat where
  id : Nat
  taskId : Nat
deriving DecidableEq, Repr

/-- A row of the `chat_members` join table. -/
structure ChatMember where
  chatId : Nat
  userId : Nat
deriving DecidableEq, Repr

/-- A row of the `messages` table. -/
structure Message where
  id : Nat
  chatId : Nat
  senderId : Nat
  content : String
  createdAt : Nat
  isRead : Bool
deriving DecidableEq, Repr

/-- A row of the `notifications` table. -/
structure Notification where
  userId : Nat
  ntype : String
  taskId : Option Nat
  isRead : Bool
deriving DecidableEq, Repr

/-- The persistent store: the tables the core workflow reads and writes,
plus id counters standing for the store's id generation. -/
structure DB where
  users : List User
  tasks : List Task
  chats : List Chat
  chatMembers : List ChatMember
  messages : List Message
  notifs : List Notification
  nextTaskId : Nat
  nextChatId : Nat
  nextMessageId : Nat
deriving DecidableEq, Repr

/-- Lookup `prisma.task.findUnique({ where: { id } })`. -/
def findTask (db : DB) (id : Nat) : Option Task :=
  db.tasks.find? (fun t => t.id == id)

/-- Lookup `supabase.from('users').select(...).eq('id', id).single()`. -/
def findUser (db : DB) (id : Nat) : Option User :=
  db.users.find? (fun u => u.id == id)

/-- Membership test `prisma.chatMember.findFirst({ where: { chatId, userId } })`. -/
def isChatMember (db : DB) (chatId userId : Nat) : Bool :=
  db.chatMembers.any (fun m => m.chatId == chatId && m.userId == userId)

/-- Outcome of `PUT /api/tasks/:id/assign` (tasks.js). -/
inductive AssignResult
  | notFound        -- 404 Task not found
  | invalidState    -- 400 Task is not available for assignment
  | selfAssignment  -- 400 You cannot assign your own task
  | serverError     -- 500 Failed to assign task (catch block)
  | assigned        -- 200 Task assigned successfully
deriving DecidableEq, Repr

/-- The `prisma.$transaction([task.update, chat.create])` body of the
assign handler: sets the task to ASSIGNED with the hustler, creates the
chat and its two member rows.  All-or-nothing: if a chat for the task
already exists the unique index `chats_taskId_key` aborts the whole
transaction (`none`). -/
def assignCommit (db : DB) (taskId hustlerId posterId : Nat) : Option DB :=
  if db.chats.any (fun c => c.taskId == taskId) then
    none
  else
    some { db with
      tasks := db.tasks.map (fun t =>
        if t.id == taskId then
          { t with status := TaskStatus.ASSIGNED, hustlerId := some hustlerId }
        else t),
      chats := { id := db.nextChatId, taskId := taskId } :: db.chats,
      chatMembers :=
        { chatId := db.nextChatId, userId := posterId } ::
        { chatId := db.nextChatId, userId := hustlerId } :: db.chatMembers,
      nextChatId := db.nextChatId + 1 }

/-- One `PUT /:id/assign` request whose `findUnique` read saw the state
`snapshot` while its writes apply to the state `db` (for a lone request
the two coincide; they differ when two requests race).  `notifOk` is
whether the poster-notification insert, which the handler awaits after
the transaction, succeeds; when it throws, the catch block answers 500
but the transaction has already committed. -/
def assignStep (snapshot db : DB) (taskId hustlerId : Nat) (notifOk : Bool) :
    AssignResult × DB :=
  match findTask snapshot taskId with
  | none => (AssignResult.notFound, db)
  | some t =>
    if t.status != TaskStatus.OPEN then
      (AssignResult.invalidState, db)
    else if t.posterId == hustlerId then
      (AssignResult.selfAssignment, db)
    else
      match assignCommit db taskId hustlerId t.posterId with
      | none => (AssignResult.serverError, db)
      | some db1 =>
        if notifOk then
          (AssignResult.assigned,
            { db1 with notifs :=
              { userId := t.posterId, ntype := "TASK_ASSIGNED",
                taskId := some taskId, isRead := false } :: db1.notifs })
        else
          (AssignResult.serverError, db1)

/-- Route `PUT /api/tasks/:id/assign` handled alone (read and write
against the same state), with the notification insert succeeding. -/
def assignTask (db : DB) (taskId hustlerId : Nat) : AssignResult × DB :=
  assignStep db db taskId hustlerId true

/-- Two `PUT /:id/assign` requests racing on the same task: both
`findUnique` reads observe the initial state `db`, then the first
caller's transaction commits, then the second caller's. -/
def raceAssign (db : DB) (taskId h1 h2 : Nat) :
    (AssignResult × AssignResult) × DB :=
  (((assignStep db db taskId h1 true).1,
    (assignStep db (assignStep db db taskId h1 true).2 taskId h2 true).1),
   (assignStep db (assignStep db db taskId h1 true).2 taskId h2 true).2)

/-- The request-body `status` after the express-validator `isIn` check of
`PUT /:id/status`: only these three targets pass validation. -/
inductive StatusTarget
  | toInProgress
  | toCompleted
  | toCancelled
deriving DecidableEq, Repr

/-- The task status a validated target maps to. -/
def targetStatus : StatusTarget → TaskStatus
  | StatusTarget.toInProgress => TaskStatus.IN_PROGRESS
  | StatusTarget.toCompleted => TaskStatus.COMPLETED
  | StatusTarget.toCancelled => TaskStatus.CANCELLED

/-- Outcome of `PUT /api/tasks/:id/status` (tasks.js). -/
inductive UpdateResult
  | notFound      -- 404 Task not found
  | unauthorized  -- 403 You are not authorized to update this task
  | updated       -- 200 Task status updated successfully
deriving DecidableEq, Repr

/-- Route `PUT /api/tasks/:id/status` (tasks.js): reads the task, checks that
the caller is the poster or the hustler, writes the new status with no
check of the current status, then — when the target is COMPLETED and the
pre-read task has a hustler — increments that hustler's
`tasksCompleted` by 1 and `totalEarnings` by the task's budget. -/
def updateStatus (db : DB) (taskId : Nat) (target : StatusTarget) (userId : Nat) :
    UpdateResult × DB :=
  match findTask db taskId with
  | none => (UpdateResult.notFound, db)
  | some t =>
    if !(t.posterId == userId || t.hustlerId == some userId) then
      (UpdateResult.unauthorized, db)
    else
      let db1 := { db with tasks := db.tasks.map (fun x =>
        if x.id == taskId then { x with status := targetStatus target } else x) }
      match target, t.hustlerId with
      | StatusTarget.toCompleted, some h =>
        (UpdateResult.updated, { db1 with users := db1.users.map (fun u =>
          if u.id == h then
            { u with tasksCompleted := u.tasksCompleted + 1,
                     totalEarnings := u.totalEarnings + t.budget }
          else u) })
      | _, _ => (UpdateResult.updated, db1)

/-- Outcome of `POST /api/tasks` (tasks.js). -/
inductive CreateResult
  | validationFailed  -- 400 Validation failed
  | created           -- 201 Task created successfully
deriving DecidableEq, Repr

/-- Route `POST /api/tasks` (tasks.js): express-validator bounds on title,
description and budget (category is closed by the enum), then
`prisma.task.create` with the schema's default status OPEN and no
hustler.  The handler touches no `users` row. -/
def createTask (db : DB) (posterId : Nat) (title descr : String)
    (category : Category) (budget : Nat) : CreateResult × DB :=
  if title.length < 5 || title.length > 100 then
    (CreateResult.validationFailed, db)
  else if descr.length < 10 || descr.length > 1000 then
    (CreateResult.validationFailed, db)
  else if budget < 100 then
    (CreateResult.validationFailed, db)
  else
    (CreateResult.created, { db with
      tasks := { id := db.nextTaskId, title := title, descr := descr,
                 category := category, budget := budget,
                 status := TaskStatus.OPEN, posterId := posterId,
                 hustlerId := none } :: db.tasks,
      nextTaskId := db.nextTaskId + 1 })

/-- Outcome of `DELETE /api/tasks/:id` (tasks.ts / Supabase variant). -/
inductive DeleteResult
  | notFound   -- 404
  | forbidden  -- 403 Not authorized to delete this task
  | deleted    -- 200
deriving DecidableEq, Repr

/-- Route `DELETE /api/tasks/:id` (tasks.ts): only the poster may delete, with
no condition on the task's status. -/
def deleteTask (db : DB) (taskId actorId : Nat) : DeleteResult × DB :=
  match findTask db taskId with
  | none => (DeleteResult.notFound, db)
  | some t =>
    if t.posterId != actorId then
      (DeleteResult.forbidden, db)
    else
      (DeleteResult.deleted,
        { db with tasks := db.tasks.filter (fun x => !(x.id == taskId)) })

/-- Outcome of `PUT /api/tasks/:id` (tasks.ts / Supabase variant). -/
inductive PutResult
  | notFound       -- 404
  | forbidden      -- 403 Not authorized to update this task
  | roleViolation  -- 400 Assigned user is not a hustler
  | serverError    -- 500 (hustler lookup threw)
  | okPut          -- 200
deriving DecidableEq, Repr

/-- Route `PUT /api/tasks/:id` (tasks.ts): the poster-only update route.  When
`hustlerId` is supplied it looks the user up and rejects with 400 when
`user_type` is not HUSTLER or BOTH; otherwise it forces
`status = ASSIGNED` alongside the hustler.  A bare `status` update is
applied as sent. -/
def updateTaskPut (db : DB) (taskId actorId : Nat)
    (newHustlerId : Option Nat) (newStatus : Option TaskStatus) :
    PutResult × DB :=
  match findTask db taskId with
  | none => (PutResult.notFound, db)
  | some t =>
    if t.posterId != actorId then
      (PutResult.forbidden, db)
    else
      match newHustlerId with
      | some hid =>
        match findUser db hid with
        | none => (PutResult.serverError, db)
        | some u =>
          if u.userType != UserType.HUSTLER && u.userType != UserType.BOTH then
            (PutResult.roleViolation, db)
          else
            (PutResult.okPut, { db with tasks := db.tasks.map (fun x =>
              if x.id == taskId then
                { x with status := TaskStatus.ASSIGNED, hustlerId := some hid }
              else x) })
      | none =>
        match newStatus with
        | some s =>
          (PutResult.okPut, { db with tasks := db.tasks.map (fun x =>
            if x.id == taskId then { x with status := s } else x) })
        | none => (PutResult.okPut, db)

/-- Outcome of `POST /api/chat/:chatId/messages` (chat.js, Prisma). -/
inductive PostResult
  | validationFailed  -- 400
  | forbidden         -- 403 You are not a member of this chat
  | sent              -- 201 Message sent successfully
deriving DecidableEq, Repr

/-- Route `POST /api/chat/:chatId/messages` (chat.js): content length 1..1000,
membership check, `message.create`, then `notification.createMany` for
every member of the chat other than the sender. -/
def postMessage (db : DB) (chatId senderId : Nat) (content : String)
    (now : Nat) : PostResult × DB :=
  if content.length < 1 || content.length > 1000 then
    (PostResult.validationFailed, db)
  else if !(isChatMember db chatId senderId) then
    (PostResult.forbidden, db)
  else
    (PostResult.sent, { db with
      messages := db.messages ++
        [{ id := db.nextMessageId, chatId := chatId, senderId := senderId,
           content := content, createdAt := now, isRead := false }],
      nextMessageId := db.nextMessageId + 1,
      notifs := db.notifs ++
        ((db.chatMembers.filter
            (fun m => m.chatId == chatId && m.userId != senderId)).map
          (fun m => { userId := m.userId, ntype := "NEW_MESSAGE",
                      taskId := none, isRead := false })) })

/-- Ordering `orderBy: { createdAt: 'desc' }`: a message comes before
another when it was created no earlier. -/
def newerFirst (a b : Message) : Prop :=
  b.createdAt ≤ a.createdAt

instance : DecidableRel newerFirst :=
  fun a b => Nat.decLe b.createdAt a.createdAt

instance : IsTotal Message newerFirst :=
  ⟨fun a b => (Nat.le_total b.createdAt a.createdAt).elim Or.inl Or.inr⟩

instance : IsTrans Message newerFirst :=
  ⟨fun _ _ _ hab hbc => Nat.le_trans hbc hab⟩

/-- The chat's messages as the storage layer lists them for
`GET /:chatId/messages`: `orderBy: { createdAt: 'desc' }`, ties kept in
insertion order (insertion sort is stable). -/
def chatMessagesDesc (db : DB) (chatId : Nat) : List Message :=
  List.insertionSort newerFirst
    (db.messages.filter (fun m => m.chatId == chatId))

/-- Outcome of `GET /api/chat/:chatId/messages` (chat.js, Prisma). -/
inductive ListResult
  | forbidden                      -- 403 You are not a member of this chat
  | okList (msgs : List Message)   -- 200, one page, oldest first
deriving DecidableEq, Repr

/-- Route `GET /api/chat/:chatId/messages` (chat.js): membership check, then
`skip = (page-1)*limit`, `take = limit` of the newest-first listing,
reversed before return to show oldest first. -/
def listMessages (db : DB) (chatId requesterId page limit : Nat) : ListResult :=
  if !(isChatMember db chatId requesterId) then
    ListResult.forbidden
  else
    ListResult.okList
      ((((chatMessagesDesc db chatId).drop ((page - 1) * limit)).take limit).reverse)

/-- Route `POST /api/chat/:chatId/messages/read` (chat.js, Supabase variant):
after authentication and the UUID param check it updates
`messages.is_read = true` for every message of the chat not sent by the
requester — with no chat-membership check — and answers
`{ success: true }`. -/
def markRead (db : DB) (chatId requesterId : Nat) : Bool × DB :=
  (true, { db with messages := db.messages.map (fun m =>
    if m.chatId == chatId && m.senderId != requesterId then
      { m with isRead := true }
    else m) })

/-- The spec's task invariant: `status = OPEN ⇔ hustler_id IS NULL`,
for every task row. -/
def taskInvariant (db : DB) : Prop :=
  ∀ t ∈ db.tasks, t.status = TaskStatus.OPEN ↔ t.hustlerId = none

instance (db : DB) : Decidable (taskInvariant db) := by
  unfold taskInvariant
  infer_instance

/-- Pagination chunks of a list: first `limit` elements reversed, then
the chunks of the rest — the sequence of pages `GET /:chatId/messages`
serves as `page` runs from 1 upward. -/
def pagesFrom (limit : Nat) (l : List Message) : List (List Message) :=
  match l with
  | [] => []
  | x :: xs =>
    if limit = 0 then []
    else ((x :: xs).take limit).reverse :: pagesFrom limit ((x :: xs).drop limit)
termination_by l.length
decreasing_by
  simp only [List.length_drop, List.length_cons]
  omega

/-- A concrete store used to exercise the handlers: user 10 is a
CUSTOMER who posted the OPEN task 1 (budget 5000), users 2 and 3 are
HUSTLERs, user 5 is another CUSTOMER; no chat exists yet. -/
def sampleDB : DB :=
  { users := [{ id := 10, userType := UserType.CUSTOMER, tasksCompleted := 0,
                tasksPosted := 0, totalEarnings := 0 },
              { id := 2, userType := UserType.HUSTLER, tasksCompleted := 7,
                tasksPosted := 0, totalEarnings := 5000 },
              { id := 3, userType := UserType.HUSTLER, tasksCompleted := 0,
                tasksPosted := 0, totalEarnings := 0 },
              { id := 5, userType := UserType.CUSTOMER, tasksCompleted := 0,
                tasksPosted := 0, totalEarnings := 0 }],
    tasks := [{ id := 1, title := "Grocery run", descr := "Buy groceries please",
                category := Category.SHOPPING, budget := 5000,
                status := TaskStatus.OPEN, posterId := 10, hustlerId := none }],
    chats := [], chatMembers := [], messages := [], notifs := [],
    nextTaskId := 2, nextChatId := 1, nextMessageId := 1 }

/-- A concrete store for the chat routes: chat 1 (for task 1) has the
members 10 and 2 and three messages with distinct timestamps; chat 2's
lone message does not belong to chat 1; user 99 is not a member. -/
def chatDB : DB :=
  { users := [], tasks := [],
    chats := [{ id := 1, taskId := 1 }],
    chatMembers := [{ chatId := 1, userId := 10 }, { chatId := 1, userId := 2 }],
    messages := [{ id := 1, chatId := 1, senderId := 10, content := "first",
                   createdAt := 3, isRead := false },
                 { id := 2, chatId := 1, senderId := 10, content := "second",
                   createdAt := 1, isRead := false },
                 { id := 3, chatId := 1, senderId := 2, content := "third",
                   createdAt := 2, isRead := false },
                 { id := 4, chatId := 2, senderId := 2, content := "other",
                   createdAt := 9, isRead := false }],
    notifs := [], nextTaskId := 2, nextChatId := 3, nextMessageId := 5 }

/-- The store after hustler 2 accepted task 1 of `sampleDB` and then
completed it once: the task is COMPLETED and user 2 has been credited
with one completion and the 5000 budget. -/
def completedDB : DB :=
  (updateStatus (assignTask sampleDB 1 2).2 1 StatusTarget.toCompleted 2).2

/-- Claim C1 (failing input): in `completedDB` task 1 is already
COMPLETED and hustler 2 holds exactly one credit (tasksCompleted 8,
totalEarnings 10000); the handler `PUT /:id/status` performs no check of
the current status, so a second COMPLETED call by the hustler succeeds
(200, not InvalidTransition) and credits the counters a second time, to
tasksCompleted 9 and totalEarnings 15000. -/
theorem updateStatus_double_complete_credits_again :
    (findTask completedDB 1).map (fun t => t.status) = some TaskStatus.COMPLETED ∧
    (findUser completedDB 2).map (fun u => (u.tasksCompleted, u.totalEarnings))
      = some (8, 10000) ∧
    (updateStatus completedDB 1 StatusTarget.toCompleted 2).1 = UpdateResult.updated ∧
    (findUser (updateStatus completedDB 1 StatusTarget.toCompleted 2).2 2).map
        (fun u => (u.tasksCompleted, u.totalEarnings)) = some (9, 15000) := by
  refine ⟨rfl, rfl, rfl, rfl⟩

/-- Claim C5: with the task found, `PUT /:id/assign` answers 400
invalidState whenever the task is not OPEN, and — when the task is OPEN —
400 selfAssignment whenever the caller is the task's poster; in both
cases the store is returned unchanged. -/
theorem assign_rejects_nonopen_and_self (db : DB) (i h : Nat) (t : Task)
    (ht : findTask db i = some t) :
    (t.status ≠ TaskStatus.OPEN →
      assignTask db i h = (AssignResult.invalidState, db)) ∧
    (t.status = TaskStatus.OPEN → t.posterId = h →
      assignTask db i h = (AssignResult.selfAssignment, db)) := by
  unfold assignTask assignStep
  rw [ht]
  constructor
  · intro hne
    simp [bne_iff_ne, hne]
  · intro hopen hp
    simp [bne_iff_ne, hopen, hp]

/-- Witness for C5: hustler 3 cannot take task 1 once hustler 2 holds it
(400, store unchanged), and poster 10 cannot take their own OPEN task
(400 selfAssignment, store unchanged). -/
theorem assign_rejects_nonopen_and_self_witness :
    assignTask (assignTask sampleDB 1 2).2 1 3
      = (AssignResult.invalidState, (assignTask sampleDB 1 2).2) ∧
    assignTask sampleDB 1 10 = (AssignResult.selfAssignment, sampleDB) :=
  ⟨(assign_rejects_nonopen_and_self (assignTask sampleDB 1 2).2 1 3 _ rfl).1
      (by decide),
   (assign_rejects_nonopen_and_self sampleDB 1 10 _ rfl).2 rfl rfl⟩

/-- Claim C7 (counterexample): a successful `POST /api/tasks` call for
poster 10 leaves the whole `users` table — in particular poster 10's
tasks_posted counter, still 0 — unchanged, refuting "increments the
poster's tasks_posted by exactly 1". -/
theorem create_leaves_tasksPosted_unchanged :
    (createTask sampleDB 10 "Valid title" "A valid description"
        Category.CLEANING 500).1 = CreateResult.created ∧
    (findUser sampleDB 10).map (fun u => u.tasksPosted) = some 0 ∧
    (findUser (createTask sampleDB 10 "Valid title" "A valid description"
        Category.CLEANING 500).2 10).map (fun u => u.tasksPosted) = some 0 ∧
    (createTask sampleDB 10 "Valid title" "A valid description"
        Category.CLEANING 500).2.users = sampleDB.users := by
  refine ⟨rfl, rfl, rfl, rfl⟩

/-- Claim C7 as amended: every `POST /api/tasks` call either fails
validation and changes nothing, or creates a new task in status OPEN with
no hustler — and in either case leaves the `users` table (hence the
poster's tasks_posted counter) untouched: the handler contains no counter
update. -/
theorem createTask_open_and_no_counter (db : DB) (p : Nat) (ttl d : String)
    (c : Category) (b : Nat) :
    ((createTask db p ttl d c b).1 = CreateResult.validationFailed ∧
      (createTask db p ttl d c b).2 = db) ∨
    ((createTask db p ttl d c b).1 = CreateResult.created ∧
      (createTask db p ttl d c b).2.tasks =
        { id := db.nextTaskId, title := ttl, descr := d, category := c,
          budget := b, status := TaskStatus.OPEN, posterId := p,
          hustlerId := none } :: db.tasks ∧
      (createTask db p ttl d c b).2.users = db.users) := by
  unfold createTask
  split
  · exact Or.inl ⟨rfl, rfl⟩
  · split
    · exact Or.inl ⟨rfl, rfl⟩
    · split
      · exact Or.inl ⟨rfl, rfl⟩
      · exact Or.inr ⟨rfl, rfl, rfl⟩

/-- Helper: after the assign transaction's `task.update`, every task row
carrying the assigned id is ASSIGNED with the given hustler. -/
theorem mem_assign_update (l : List Task) (i h : Nat) (t' : Task)
    (ht' : t' ∈ l.map (fun t =>
      if t.id == i then
        { t with status := TaskStatus.ASSIGNED, hustlerId := some h }
      else t))
    (hid : t'.id = i) :
    t'.status = TaskStatus.ASSIGNED ∧ t'.hustlerId = some h := by
  rw [List.mem_map] at ht'
  obtain ⟨t, hmem, rfl⟩ := ht'
  by_cases hc : t.id = i
  · simp [hc]
  · simp only [beq_iff_eq, if_neg hc] at hid ⊢
    exact absurd hid hc

/-- Helper: the committed state of a successful assign transaction, for
either outcome of the trailing notification insert: with the task found
OPEN in the snapshot, a non-poster caller and no existing chat for the
task, the transaction writes the task update, the chat and both member
rows; the notification row and the 200 answer appear only when the
notification insert succeeds. -/
theorem assignStep_success_state (snapshot db : DB) (i h : Nat) (nOk : Bool)
    (t : Task) (ht : findTask snapshot i = some t)
    (hopen : t.status = TaskStatus.OPEN) (hself : t.posterId ≠ h)
    (hany : (db.chats.any (fun c => c.taskId == i)) = false) :
    assignStep snapshot db i h nOk =
      ((if nOk then AssignResult.assigned else AssignResult.serverError),
       { db with
         tasks := db.tasks.map (fun x =>
           if x.id == i then
             { x with status := TaskStatus.ASSIGNED, hustlerId := some h }
           else x),
         chats := { id := db.nextChatId, taskId := i } :: db.chats,
         chatMembers :=
           { chatId := db.nextChatId, userId := t.posterId } ::
           { chatId := db.nextChatId, userId := h } :: db.chatMembers,
         nextChatId := db.nextChatId + 1,
         notifs := if nOk then
             { userId := t.posterId, ntype := "TASK_ASSIGNED",
               taskId := some i, isRead := false } :: db.notifs
           else db.notifs }) := by
  have h1 : (t.status != TaskStatus.OPEN) = false := by simp [hopen]
  have h2 : (t.posterId == h) = false := by simp [hself]
  unfold assignStep
  rw [ht]
  simp only [h1, Bool.false_eq_true, if_false, h2]
  unfold assignCommit
  simp only [hany, Bool.false_eq_true, if_false]
  cases nOk with
  | false => rfl
  | true => rfl

/-- Claim C6 (counterexample): user 5 of `sampleDB` is a plain CUSTOMER,
yet `PUT /tasks/1/assign` called by user 5 succeeds and records user 5 as
the task's hustler — the assign route performs no role check. -/
theorem customer_can_assign_itself :
    (findUser sampleDB 5).map (fun u => u.userType) = some UserType.CUSTOMER ∧
    (assignTask sampleDB 1 5).1 = AssignResult.assigned ∧
    (findTask (assignTask sampleDB 1 5).2 1).map (fun t => (t.status, t.hustlerId))
      = some (TaskStatus.ASSIGNED, some 5) := by
  refine ⟨rfl, rfl, rfl⟩

/-- Claim C6 as amended: the assign route `PUT /:id/assign` performs no
role check at all — its outcome is independent of the `users` table, so
any authenticated non-poster (e.g. a plain CUSTOMER) can take an OPEN
task; the HUSTLER/BOTH role check exists only in the separate poster-only
update route `PUT /:id` (tasks.ts), which rejects a non-hustler
assignment with 400 and leaves the store unchanged. -/
theorem role_checked_only_in_put_update (db : DB) :
    (∀ us i h, assignTask { db with users := us } i h
        = ((assignTask db i h).1, { (assignTask db i h).2 with users := us })) ∧
    (∀ i a hid ns t u, findTask db i = some t → t.posterId = a →
      findUser db hid = some u → u.userType ≠ UserType.HUSTLER →
      u.userType ≠ UserType.BOTH →
      updateTaskPut db i a (some hid) ns = (PutResult.roleViolation, db)) := by
  constructor
  · intro us i h
    cases db with
    | mk users tasks chats chatMembers messages notifs nT nC nM =>
      unfold assignTask assignStep assignCommit findTask
      cases tasks.find? (fun t => t.id == i) with
      | none => rfl
      | some t =>
        by_cases hs : (t.status != TaskStatus.OPEN) = true
        · simp only [hs]; rfl
        · simp only [hs]
          by_cases hp : (t.posterId == h) = true
          · simp only [hp]; rfl
          · simp only [hp]
            by_cases hc : (chats.any (fun c => c.taskId == i)) = true
            · simp only [hc]; rfl
            · simp only [hc]; rfl
  · intro i a hid ns t u ht ha hu hne1 hne2
    unfold updateTaskPut
    rw [ht]
    simp only [ha, bne_self_eq_false, Bool.false_eq_true, if_false]
    rw [hu]
    simp [bne_iff_ne, hne1, hne2]

/-- Witness for C6 (amended): in `sampleDB`, poster 10 asking the update
route to hand task 1 to the CUSTOMER user 5 gets 400 roleViolation and
the store is unchanged; and replacing the users table does not change
what the assign route answers. -/
theorem role_checked_only_in_put_update_witness :
    updateTaskPut sampleDB 1 10 (some 5) none
      = (PutResult.roleViolation, sampleDB) ∧
    assignTask { sampleDB with users := [] } 1 2
      = ((assignTask sampleDB 1 2).1,
         { (assignTask sampleDB 1 2).2 with users := [] }) :=
  ⟨(role_checked_only_in_put_update sampleDB).2 1 10 5 none _ _ rfl rfl rfl
      (by decide) (by decide),
   (role_checked_only_in_put_update sampleDB).1 [] 1 2⟩

/-- Claim C8 (counterexample): user 99 is no member of chat 1 of
`chatDB`, yet `POST /chat/1/messages/read` (Supabase variant) succeeds
for user 99 and flips is_read on all three of chat 1's messages — the
mark-read route performs no membership check. -/
theorem nonmember_markRead_succeeds :
    isChatMember chatDB 1 99 = false ∧
    (markRead chatDB 1 99).1 = true ∧
    (markRead chatDB 1 99).2.messages.map (fun m => m.isRead)
      = [true, true, true, false] := by
  refine ⟨rfl, rfl, rfl⟩

/-- Claim C8 as amended: a non-member's `postMessage` (with content
passing validation) and `listMessages` are both rejected with 403 and
mutate nothing, but `markRead` carries no membership check: it answers
success for any authenticated requester and marks every message of the
chat not sent by the requester as read. -/
theorem nonmember_chat_access (db : DB) (c r : Nat)
    (hnm : isChatMember db c r = false) :
    (∀ (content : String) (now : Nat), 1 ≤ content.length →
      content.length ≤ 1000 →
      postMessage db c r content now = (PostResult.forbidden, db)) ∧
    (∀ page limit, listMessages db c r page limit = ListResult.forbidden) ∧
    (markRead db c r).1 = true ∧
    (markRead db c r).2.messages = db.messages.map (fun m =>
      if m.chatId == c && m.senderId != r then { m with isRead := true }
      else m) := by
  refine ⟨?_, ?_, rfl, rfl⟩
  · intro content now h1 h2
    unfold postMessage
    rw [if_neg (by simp; omega), if_pos (by rw [hnm]; rfl)]
  · intro page limit
    simp [listMessages, hnm]

/-- Witness for C8 (amended): non-member 99 posting to or listing chat 1
of `chatDB` gets 403, with the store unchanged. -/
theorem nonmember_chat_access_witness :
    postMessage chatDB 1 99 "hello" 10 = (PostResult.forbidden, chatDB) ∧
    listMessages chatDB 1 99 1 50 = ListResult.forbidden :=
  ⟨(nonmember_chat_access chatDB 1 99 rfl).1 "hello" 10 (by decide) (by decide),
   (nonmember_chat_access chatDB 1 99 rfl).2.1 1 50⟩

/-- Claim C10: when the assign preconditions hold but the
poster-notification insert (awaited after `prisma.$transaction`) fails,
the handler answers 500 — yet the transaction has already committed: the
task is ASSIGNED to the hustler, the chat and both member rows exist,
and no notification row was persisted; the assignment is not rolled
back. -/
theorem assign_notif_failure_after_commit (db : DB) (i h : Nat) (t : Task)
    (ht : findTask db i = some t) (hopen : t.status = TaskStatus.OPEN)
    (hself : t.posterId ≠ h) (hnochat : ∀ c ∈ db.chats, c.taskId ≠ i) :
    (assignStep db db i h false).1 = AssignResult.serverError ∧
    (∀ t' ∈ (assignStep db db i h false).2.tasks, t'.id = i →
      t'.status = TaskStatus.ASSIGNED ∧ t'.hustlerId = some h) ∧
    (assignStep db db i h false).2.chats
      = { id := db.nextChatId, taskId := i } :: db.chats ∧
    (assignStep db db i h false).2.chatMembers
      = { chatId := db.nextChatId, userId := t.posterId } ::
        { chatId := db.nextChatId, userId := h } :: db.chatMembers ∧
    (assignStep db db i h false).2.notifs = db.notifs := by
  have hany : (db.chats.any (fun c => c.taskId == i)) = false := by
    rw [List.any_eq_false]
    intro c hc
    simp [hnochat c hc]
  rw [assignStep_success_state db db i h false t ht hopen hself hany]
  exact ⟨rfl, fun t' ht' hid => mem_assign_update db.tasks i h t' ht' hid,
    rfl, rfl, rfl⟩

/-- Witness for C10: on `sampleDB`, hustler 2's assign of task 1 with a
failing notification insert answers 500 while the committed store holds
the assignment, the chat and its two members, and no notification. -/
theorem assign_notif_failure_after_commit_witness :
    (assignStep sampleDB sampleDB 1 2 false).1 = AssignResult.serverError ∧
    (assignStep sampleDB sampleDB 1 2 false).2.chats
      = [{ id := 1, taskId := 1 }] ∧
    (assignStep sampleDB sampleDB 1 2 false).2.notifs = [] := by
  have h := assign_notif_failure_after_commit sampleDB 1 2 _ rfl rfl
    (by decide) (by decide)
  exact ⟨h.1, h.2.2.1, h.2.2.2.2⟩

/-- Helper: aborted assign transaction — with the snapshot checks passed
but a chat already present for the task, the unique index
`chats_taskId_key` fails `chat.create`, the transaction rolls back whole,
and the catch block answers 500 with the store unchanged. -/
theorem assignStep_chat_exists (snapshot db : DB) (i h : Nat) (t : Task)
    (ht : findTask snapshot i = some t) (hopen : t.status = TaskStatus.OPEN)
    (hself : t.posterId ≠ h)
    (hchat : (db.chats.any (fun c => c.taskId == i)) = true) :
    assignStep snapshot db i h true = (AssignResult.serverError, db) := by
  have e1 : (t.status != TaskStatus.OPEN) = false := by simp [hopen]
  have e2 : (t.posterId == h) = false := by simp [hself]
  unfold assignStep
  rw [ht]
  simp only [e1, Bool.false_eq_true, if_false, e2]
  unfold assignCommit
  rw [if_pos hchat]

/-- Helper: looking the task up after the assign transaction's
`task.update` returns the pre-read row with status ASSIGNED and the
hustler recorded. -/
theorem findTask_after_assign_update (l : List Task) (i h : Nat) (t : Task)
    (ht : l.find? (fun x => x.id == i) = some t) :
    (l.map (fun x =>
      if x.id == i then
        { x with status := TaskStatus.ASSIGNED, hustlerId := some h }
      else x)).find? (fun x => x.id == i)
      = some { t with status := TaskStatus.ASSIGNED, hustlerId := some h } := by
  induction l with
  | nil => simp at ht
  | cons a l ih =>
    by_cases hai : (a.id == i) = true
    · rw [@List.find?_cons_of_pos Task (fun x => x.id == i) a l hai] at ht
      injection ht with ht
      subst ht
      have hai' : a.id = i := by simpa using hai
      simp [List.find?_cons, hai']
    · rw [@List.find?_cons_of_neg Task (fun x => x.id == i) a l hai] at ht
      simp only [List.map_cons, if_neg hai]
      rw [@List.find?_cons_of_neg Task (fun x => x.id == i) a _ hai]
      exact ih ht

/-- Claim C3: the three persistent effects of `PUT /:id/assign` — task
set to ASSIGNED with the hustler, chat created, both member rows
inserted — are wrapped in one `prisma.$transaction`: either the call
answers 200 and all three are committed, or the call fails and the store
is exactly as before. -/
theorem assign_effects_atomic (db : DB) (i h : Nat) :
    ((assignTask db i h).1 ≠ AssignResult.assigned ∧
      (assignTask db i h).2 = db) ∨
    ((assignTask db i h).1 = AssignResult.assigned ∧
      (∀ t' ∈ (assignTask db i h).2.tasks, t'.id = i →
        t'.status = TaskStatus.ASSIGNED ∧ t'.hustlerId = some h) ∧
      (assignTask db i h).2.chats
        = { id := db.nextChatId, taskId := i } :: db.chats ∧
      ∃ t, findTask db i = some t ∧
        (assignTask db i h).2.chatMembers
          = { chatId := db.nextChatId, userId := t.posterId } ::
            { chatId := db.nextChatId, userId := h } :: db.chatMembers) := by
  have d1 : AssignResult.notFound ≠ AssignResult.assigned := by decide
  have d2 : AssignResult.invalidState ≠ AssignResult.assigned := by decide
  have d3 : AssignResult.selfAssignment ≠ AssignResult.assigned := by decide
  have d4 : AssignResult.serverError ≠ AssignResult.assigned := by decide
  unfold assignTask
  cases ht : findTask db i with
  | none =>
    left
    unfold assignStep
    rw [ht]
    exact ⟨d1, rfl⟩
  | some t =>
    by_cases hst : t.status = TaskStatus.OPEN
    · by_cases hp : t.posterId = h
      · left
        have e1 : (t.status != TaskStatus.OPEN) = false := by simp [hst]
        have e2 : (t.posterId == h) = true := by simp [hp]
        unfold assignStep
        rw [ht]
        simp only [e1, Bool.false_eq_true, if_false, e2, if_true]
        exact ⟨d3, by trivial⟩
      · by_cases hca : (db.chats.any (fun c => c.taskId == i)) = true
        · left
          rw [assignStep_chat_exists db db i h t ht hst hp hca]
          exact ⟨d4, rfl⟩
        · right
          have hany : (db.chats.any (fun c => c.taskId == i)) = false := by
            simpa using hca
          rw [assignStep_success_state db db i h true t ht hst hp hany]
          exact ⟨rfl,
            fun t' ht' hid => mem_assign_update db.tasks i h t' ht' hid,
            rfl, ⟨t, rfl, rfl⟩⟩
    · left
      have e1 : (t.status != TaskStatus.OPEN) = true := by simp [hst]
      unfold assignStep
      rw [ht]
      simp only [e1, if_true]
      exact ⟨d2, by trivial⟩

/-- Claim C2 (counterexample): `sampleDB` satisfies the invariant
status = OPEN ⇔ hustler_id null, yet poster 10 calling
`PUT /tasks/1/status` with IN_PROGRESS succeeds — the handler never
checks the current status — and leaves task 1 IN_PROGRESS with a null
hustler_id, breaking the invariant. -/
theorem updateStatus_breaks_open_invariant :
    taskInvariant sampleDB ∧
    (updateStatus sampleDB 1 StatusTarget.toInProgress 10).1
      = UpdateResult.updated ∧
    (findTask (updateStatus sampleDB 1 StatusTarget.toInProgress 10).2 1).map
      (fun t => (t.status, t.hustlerId))
      = some (TaskStatus.IN_PROGRESS, none) ∧
    ¬ taskInvariant (updateStatus sampleDB 1 StatusTarget.toInProgress 10).2 := by
  refine ⟨by decide, rfl, rfl, by decide⟩

/-- Helper: mapping a status rewrite over the task table preserves the
OPEN ⇔ no-hustler invariant provided the written status is not OPEN and
no affected row was OPEN. -/
theorem invariant_after_status_write (l : List Task) (i : Nat) (s : TaskStatus)
    (hs : s ≠ TaskStatus.OPEN)
    (hinv : ∀ t ∈ l, t.status = TaskStatus.OPEN ↔ t.hustlerId = none)
    (hno : ∀ t ∈ l, t.id = i → t.status ≠ TaskStatus.OPEN) :
    ∀ t' ∈ l.map (fun x => if x.id == i then { x with status := s } else x),
      t'.status = TaskStatus.OPEN ↔ t'.hustlerId = none := by
  intro t' htm
  rw [List.mem_map] at htm
  obtain ⟨x, hx, rfl⟩ := htm
  by_cases hxi : (x.id == i) = true
  · rw [if_pos hxi]
    constructor
    · intro habs
      exact absurd habs hs
    · intro hnone
      exact absurd ((hinv x hx).mpr hnone)
        (hno x hx (by simpa using hxi))
  · rw [if_neg hxi]
    exact hinv x hx

/-- Claim C2 as amended: the invariant status = OPEN ⇔ hustler_id null is
preserved by task creation, assignment and deletion, and by a status
update whose target task is not OPEN; it is not preserved in general —
`PUT /:id/status` applied by the poster to an OPEN task writes
IN_PROGRESS/COMPLETED/CANCELLED while hustler_id stays null (see the
counterexample). -/
theorem invariant_holds_except_updateStatus_on_open (db : DB)
    (hinv : taskInvariant db) :
    (∀ p ttl d c b, taskInvariant (createTask db p ttl d c b).2) ∧
    (∀ i h, taskInvariant (assignTask db i h).2) ∧
    (∀ i a, taskInvariant (deleteTask db i a).2) ∧
    (∀ i tgt a, (∀ t ∈ db.tasks, t.id = i → t.status ≠ TaskStatus.OPEN) →
      taskInvariant (updateStatus db i tgt a).2) := by
  refine ⟨?_, ?_, ?_, ?_⟩
  · intro p ttl d c b
    unfold createTask
    split
    · exact hinv
    · split
      · exact hinv
      · split
        · exact hinv
        · intro t' htm
          rcases List.mem_cons.mp htm with heq | hmem
          · subst heq
            exact ⟨fun _ => rfl, fun _ => rfl⟩
          · exact hinv t' hmem
  · intro i h
    unfold assignTask
    cases ht : findTask db i with
    | none =>
      unfold assignStep
      rw [ht]
      exact hinv
    | some t =>
      by_cases hst : t.status = TaskStatus.OPEN
      · by_cases hp : t.posterId = h
        · have e1 : (t.status != TaskStatus.OPEN) = false := by simp [hst]
          have e2 : (t.posterId == h) = true := by simp [hp]
          unfold assignStep
          rw [ht]
          simp only [e1, Bool.false_eq_true, if_false, e2, if_true]
          exact hinv
        · by_cases hca : (db.chats.any (fun c => c.taskId == i)) = true
          · rw [assignStep_chat_exists db db i h t ht hst hp hca]
            exact hinv
          · have hany : (db.chats.any (fun c => c.taskId == i)) = false := by
              simpa using hca
            rw [assignStep_success_state db db i h true t ht hst hp hany]
            intro t' htm
            have htm' : t' ∈ db.tasks.map (fun x =>
                if x.id == i then
                  { x with status := TaskStatus.ASSIGNED, hustlerId := some h }
                else x) := htm
            rw [List.mem_map] at htm'
            obtain ⟨x, hx, rfl⟩ := htm'
            by_cases hxi : (x.id == i) = true
            · rw [if_pos hxi]
              simp
            · rw [if_neg hxi]
              exact hinv x hx
      · have e1 : (t.status != TaskStatus.OPEN) = true := by simp [hst]
        unfold assignStep
        rw [ht]
        simp only [e1, if_true]
        exact hinv
  · intro i a
    unfold deleteTask
    cases ht : findTask db i with
    | none => exact hinv
    | some t =>
      by_cases hpa : (t.posterId != a) = true
      · simp only [hpa, if_true]
        exact hinv
      · have hpa' : (t.posterId != a) = false := by simpa using hpa
        simp only [hpa', Bool.false_eq_true, if_false]
        intro t' htm
        have htm' : t' ∈ db.tasks.filter (fun x => !(x.id == i)) := htm
        exact hinv t' (List.mem_of_mem_filter htm')
  · intro i tgt a hno
    unfold updateStatus
    cases ht : findTask db i with
    | none => exact hinv
    | some t =>
      by_cases hauth : (!(t.posterId == a || t.hustlerId == some a)) = true
      · simp only [hauth, if_true]
        exact hinv
      · have hauth' : (!(t.posterId == a || t.hustlerId == some a)) = false := by
          simpa using hauth
        simp only [hauth', Bool.false_eq_true, if_false]
        cases tgt with
        | toInProgress =>
          exact invariant_after_status_write db.tasks i _ (by decide) hinv hno
        | toCompleted =>
          cases hh : t.hustlerId with
          | none =>
            exact invariant_after_status_write db.tasks i _ (by decide) hinv hno
          | some u =>
            exact invariant_after_status_write db.tasks i _ (by decide) hinv hno
        | toCancelled =>
          exact invariant_after_status_write db.tasks i _ (by decide) hinv hno

/-- Witness for C2 (amended): starting from `sampleDB` (which satisfies
the invariant), the invariant still holds after hustler 2 takes task 1
and after the non-OPEN task is completed. -/
theorem invariant_holds_witness :
    taskInvariant (assignTask sampleDB 1 2).2 ∧
    taskInvariant (updateStatus (assignTask sampleDB 1 2).2 1
      StatusTarget.toCompleted 2).2 :=
  ⟨(invariant_holds_except_updateStatus_on_open sampleDB (by decide)).2.1 1 2,
   (invariant_holds_except_updateStatus_on_open (assignTask sampleDB 1 2).2
      (by decide)).2.2.2 1 StatusTarget.toCompleted 2 (by decide)⟩

/-- Claim C4 (counterexample): two assigns racing on OPEN task 1 of
`sampleDB` with both pre-reads before either commit: hustler 2 wins,
hustler 3's transaction aborts on the `chats.taskId` unique index and
the catch block answers 500 serverError — not the claimed 400
invalidState — while the task stays assigned to hustler 2. -/
theorem race_loser_gets_server_error :
    (raceAssign sampleDB 1 2 3).1.1 = AssignResult.assigned ∧
    (raceAssign sampleDB 1 2 3).1.2 = AssignResult.serverError ∧
    (raceAssign sampleDB 1 2 3).1.2 ≠ AssignResult.invalidState ∧
    (findTask (raceAssign sampleDB 1 2 3).2 1).map
      (fun t => (t.status, t.hustlerId))
      = some (TaskStatus.ASSIGNED, some 2) := by
  refine ⟨rfl, rfl, by decide, rfl⟩

/-- Claim C4 as amended: exactly one racing caller flips the task from
OPEN to ASSIGNED and the assignment is never overwritten; the loser
observes 400 invalidState when its pre-read happens after the winner's
commit (serial schedule), but a 500 serverError — the loser's whole
transaction rolled back by the chat unique index — when both pre-reads
precede the first commit (overlapped schedule). -/
theorem race_exactly_one_winner (db : DB) (i h1 h2 : Nat) (t : Task)
    (ht : findTask db i = some t) (hopen : t.status = TaskStatus.OPEN)
    (hne1 : t.posterId ≠ h1) (hne2 : t.posterId ≠ h2)
    (hnochat : ∀ c ∈ db.chats, c.taskId ≠ i) :
    ((raceAssign db i h1 h2).1.1 = AssignResult.assigned ∧
     (raceAssign db i h1 h2).1.2 = AssignResult.serverError ∧
     (raceAssign db i h1 h2).2 = (assignTask db i h1).2) ∧
    ((assignTask db i h1).1 = AssignResult.assigned ∧
     (assignTask (assignTask db i h1).2 i h2).1 = AssignResult.invalidState ∧
     (assignTask (assignTask db i h1).2 i h2).2 = (assignTask db i h1).2) ∧
    (∀ t' ∈ (assignTask db i h1).2.tasks, t'.id = i →
      t'.status = TaskStatus.ASSIGNED ∧ t'.hustlerId = some h1) := by
  have hany : (db.chats.any (fun c => c.taskId == i)) = false := by
    rw [List.any_eq_false]
    intro c hc
    simp [hnochat c hc]
  have hW := assignStep_success_state db db i h1 true t ht hopen hne1 hany
  have hwin : (assignTask db i h1).1 = AssignResult.assigned := by
    unfold assignTask
    rw [hW]
    rfl
  have hchats : (assignTask db i h1).2.chats
      = { id := db.nextChatId, taskId := i } :: db.chats := by
    unfold assignTask
    rw [hW]
  have htasks : (assignTask db i h1).2.tasks
      = db.tasks.map (fun x =>
          if x.id == i then
            { x with status := TaskStatus.ASSIGNED, hustlerId := some h1 }
          else x) := by
    unfold assignTask
    rw [hW]
  have hchat2 : ((assignTask db i h1).2.chats.any (fun c => c.taskId == i))
      = true := by
    rw [hchats]
    simp
  have hs2 : assignStep db (assignTask db i h1).2 i h2 true
      = (AssignResult.serverError, (assignTask db i h1).2) :=
    assignStep_chat_exists db (assignTask db i h1).2 i h2 t ht hopen hne2 hchat2
  have hfindW : findTask (assignTask db i h1).2 i
      = some { t with status := TaskStatus.ASSIGNED, hustlerId := some h1 } := by
    unfold findTask
    rw [htasks]
    exact findTask_after_assign_update db.tasks i h1 t ht
  have hloser : ∀ W : DB,
      findTask W i
          = some { t with status := TaskStatus.ASSIGNED, hustlerId := some h1 } →
      assignTask W i h2 = (AssignResult.invalidState, W) := by
    intro W hfW
    unfold assignTask assignStep
    rw [hfW]
    simp
  refine ⟨⟨hwin, ?_, ?_⟩,
    ⟨hwin, by rw [hloser _ hfindW], by rw [hloser _ hfindW]⟩, ?_⟩
  · show (assignStep db (assignTask db i h1).2 i h2 true).1
      = AssignResult.serverError
    rw [hs2]
  · show (assignStep db (assignTask db i h1).2 i h2 true).2
      = (assignTask db i h1).2
    rw [hs2]
  · rw [htasks]
    intro t' htm hid
    exact mem_assign_update db.tasks i h1 t' htm hid

/-- Witness for C4 (amended): on `sampleDB`, the overlapped race of
hustlers 2 and 3 on task 1 lets 2 win, and a serial second assign by 3
is rejected with invalidState. -/
theorem race_exactly_one_winner_witness :
    (raceAssign sampleDB 1 2 3).1.1 = AssignResult.assigned ∧
    (assignTask (assignTask sampleDB 1 2).2 1 3).1
      = AssignResult.invalidState :=
  ⟨(race_exactly_one_winner sampleDB 1 2 3 _ rfl rfl (by decide) (by decide)
      (by decide)).1.1,
   (race_exactly_one_winner sampleDB 1 2 3 _ rfl rfl (by decide) (by decide)
      (by decide)).2.1.2.1⟩

/-- Helper: with a positive page size, concatenating all pages in order
is a permutation of the underlying listing — pagination drops nothing
and duplicates nothing. -/
theorem pagesFrom_flatten_perm (limit : Nat) (hl : 1 ≤ limit) :
    ∀ (n : Nat) (l : List Message), l.length ≤ n →
      ((pagesFrom limit l).flatten).Perm l := by
  intro n
  induction n with
  | zero =>
    intro l hn
    have hnil : l = [] := List.eq_nil_of_length_eq_zero (Nat.le_zero.mp hn)
    subst hnil
    simp [pagesFrom]
  | succ n ih =>
    intro l hn
    cases l with
    | nil => simp [pagesFrom]
    | cons x xs =>
      rw [pagesFrom]
      have hlim : ¬ limit = 0 := by omega
      rw [if_neg hlim, List.flatten_cons]
      refine ((List.reverse_perm _).append (ih _ ?_)).trans ?_
      · simp only [List.length_drop, List.length_cons] at hn ⊢
        omega
      · rw [List.take_append_drop]

/-- Helper: the page served for a 1-based page number p is the p-th
chunk of the newest-first listing: drop (p-1)·limit, take limit,
reversed. -/
theorem pagesFrom_getD (limit : Nat) (hl : 1 ≤ limit) :
    ∀ (p : Nat) (l : List Message),
      (pagesFrom limit l).getD p []
        = ((l.drop (p * limit)).take limit).reverse := by
  intro p
  induction p with
  | zero =>
    intro l
    cases l with
    | nil => simp [pagesFrom]
    | cons x xs =>
      rw [pagesFrom]
      have hlim : ¬ limit = 0 := by omega
      rw [if_neg hlim, List.getD_cons_zero, Nat.zero_mul, List.drop_zero]
  | succ p ih =>
    intro p_l
    cases p_l with
    | nil => simp [pagesFrom]
    | cons x xs =>
      rw [pagesFrom]
      have hlim : ¬ limit = 0 := by omega
      rw [if_neg hlim, List.getD_cons_succ, ih ((x :: xs).drop limit),
        List.drop_drop]
      have harith : limit + p * limit = (p + 1) * limit := by ring
      rw [harith]

/-- Helper: any drop/take window of the newest-first listing, once
reversed, is in non-decreasing creation-time order. -/
theorem page_sorted_ascending (l : List Message)
    (hs : List.Sorted newerFirst l) (off k : Nat) :
    (((l.drop off).take k).reverse).Pairwise
      (fun a b => a.createdAt ≤ b.createdAt) := by
  have hsub : ((l.drop off).take k).Sublist l :=
    (List.take_sublist _ _).trans (List.drop_sublist _ _)
  have hw : ((l.drop off).take k).Pairwise newerFirst :=
    List.Pairwise.sublist hsub hs
  rw [List.pairwise_reverse]
  exact hw

/-- Claim C9: for a chat member, `GET /:chatId/messages` serves exactly
the page of size limit at offset (page-1)·limit of the chat's
newest-first listing, reversed before return; every returned page is in
non-decreasing creation-time order (page 1 being the most recent limit
messages, ascending), the served page is the (page-1)-th pagination
chunk, and the chunks together are a permutation of the chat's messages
— paginating through all pages yields every message exactly once. -/
theorem listMessages_pagination (db : DB) (c r page limit : Nat)
    (hm : isChatMember db c r = true) (hp : 1 ≤ page) (hl : 1 ≤ limit) :
    listMessages db c r page limit
      = ListResult.okList
          ((((chatMessagesDesc db c).drop ((page - 1) * limit)).take
            limit).reverse) ∧
    (∀ msgs, listMessages db c r page limit = ListResult.okList msgs →
      msgs.Pairwise (fun a b => a.createdAt ≤ b.createdAt)) ∧
    listMessages db c r page limit
      = ListResult.okList
          ((pagesFrom limit (chatMessagesDesc db c)).getD (page - 1) []) ∧
    ((pagesFrom limit (chatMessagesDesc db c)).flatten).Perm
      (db.messages.filter (fun m => m.chatId == c)) := by
  have hsorted : List.Sorted newerFirst (chatMessagesDesc db c) :=
    List.sorted_insertionSort newerFirst
      (db.messages.filter (fun m => m.chatId == c))
  have hdef : listMessages db c r page limit
      = ListResult.okList
          ((((chatMessagesDesc db c).drop ((page - 1) * limit)).take
            limit).reverse) := by
    unfold listMessages
    rw [if_neg (by rw [hm]; simp)]
  refine ⟨hdef, ?_, ?_, ?_⟩
  · intro msgs hmsg
    rw [hdef] at hmsg
    injection hmsg with hmsg
    subst hmsg
    exact page_sorted_ascending (chatMessagesDesc db c) hsorted _ _
  · rw [hdef, pagesFrom_getD limit hl (page - 1) (chatMessagesDesc db c)]
  · exact (pagesFrom_flatten_perm limit hl (chatMessagesDesc db c).length
      (chatMessagesDesc db c) (Nat.le_refl _)).trans
      (List.perm_insertionSort newerFirst _)

/-- Witness for C9: member 10 of chat 1 in `chatDB`, page 1 of size 2:
the served page is the reversed newest-first window, and the two pages
together permute the three chat-1 messages. -/
theorem listMessages_pagination_witness :
    listMessages chatDB 1 10 1 2
      = ListResult.okList
          ((((chatMessagesDesc chatDB 1).drop ((1 - 1) * 2)).take 2).reverse) ∧
    ((pagesFrom 2 (chatMessagesDesc chatDB 1)).flatten).Perm
      (chatDB.messages.filter (fun m => m.chatId == 1)) :=
  ⟨(listMessages_pagination chatDB 1 10 1 2 rfl (by decide) (by decide)).1,
   (listMessages_pagination chatDB 1 10 1 2 rfl (by decide) (by decide)).2.2.2⟩

end Hustlrs
